import Mathlib

/-!
Verification of `examples/offline_inference/batch_llm_inference.py`, a
straight-line Ray Data batch-inference script.  The script's own logic is:
a Ray-version assertion, a dataset load, a count, construction of a
`vLLMEngineProcessorConfig`, construction and application of an LLM
processor built from two lambda callbacks (`preprocess`, `postprocess`),
and a bounded `take` over the results.

We embed the two callbacks as functions over association-list records
(Python dicts), and the top-level script as a small step machine emitting
an effect trace, so ordering, fail-fast and immutability properties can be
stated and proved.
-/

namespace BatchLLM

/-- A Python value as it appears in this script's records and configs
(string, integer or boolean fields). -/
inductive Val where
  | str (s : String)
  | int (n : Int)
  | bool (b : Bool)
  deriving DecidableEq, Repr

/-- A record (Python dict): an association list from field names to values.
Lookup returns the first binding, matching dict semantics where keys are
unique. -/
def Record := List (String × Val)

instance : DecidableEq Record := by
  unfold Record
  infer_instance

/-- Python `row[k]`: `some v` on a present key, `none` meaning `KeyError`. -/
def Record.lookup (r : Record) (k : String) : Option Val :=
  match r with
  | [] => none
  | (k', v) :: rest => if k' = k then some v else Record.lookup rest k

/-- Errors the script's callbacks can raise. -/
inductive PyError where
  | keyError (k : String)
  | typeError (msg : String)
  deriving DecidableEq, Repr

/-- One conversation turn of an inference request (`{"role": ..., "content": ...}`). -/
structure Message where
  role : String
  content : Val
  deriving DecidableEq, Repr

/-- The sampling parameters dict built by the preprocess lambda
(`temperature`, `max_tokens`).  The temperature literal `0.3` is embedded
as the rational 3/10. -/
structure SamplingParams where
  temperature : ℚ
  max_tokens : Nat
  deriving DecidableEq, Repr

/-- The dict returned by the preprocess lambda:
`dict(messages=..., sampling_params=...)`. -/
structure InferenceRequest where
  messages : List Message
  sampling_params : SamplingParams
  deriving DecidableEq, Repr

/-- The `preprocess` lambda (source lines 60-69):

```
lambda row: dict(
    messages=[
        {"role": "system", "content": "You are a bot that responds with haikus."},
        {"role": "user", "content": row["text"]},
    ],
    sampling_params=dict(temperature=0.3, max_tokens=250),
)
```

`row["text"]` raises `KeyError` when the key is absent, so the embedding
returns `Except`. -/
def preprocess (row : Record) : Except PyError InferenceRequest :=
  match row.lookup "text" with
  | none => .error (.keyError "text")
  | some t =>
      .ok { messages :=
              [ { role := "system",
                  content := .str "You are a bot that responds with haikus." },
                { role := "user", content := t } ],
            sampling_params := { temperature := 3/10, max_tokens := 250 } }

/-- The `postprocess` lambda (source lines 70-73):

```
lambda row: dict(
    answer=row["generated_text"],
    **row,
)
```

`row["generated_text"]` raises `KeyError` when absent; then
`dict(answer=..., **row)` raises
`TypeError: dict() got multiple values for keyword argument` when `row`
itself already has an `answer` key.  Otherwise the result holds the
`answer` binding plus all of `row`'s bindings. -/
def postprocess (row : Record) : Except PyError Record :=
  match row.lookup "generated_text" with
  | none => .error (.keyError "generated_text")
  | some g =>
      if (row.lookup "answer").isSome then
        .error (.typeError "dict() got multiple values for keyword argument: answer")
      else
        .ok (("answer", g) :: row)

/-- The preprocess lambda as invoked by the Ray runtime: an invocation
carries whatever ambient state `σ` the worker has; the lambda reads no
ambient state and writes none, so the embedding threads `s` through
unchanged. -/
def preprocessSt {σ : Type} (s : σ) (row : Record) :
    Except PyError InferenceRequest × σ :=
  (preprocess row, s)

/-! ## The top-level script as a step machine -/

/-- A release version (e.g. `packaging.version.Version("2.44.1")` is
`[2, 44, 1]`). -/
def PyVersion := List Nat

/-- Strict order on release versions: lexicographic, with a missing
component reading as `0` (so `2.44` equals `2.44.0`), matching
`packaging.version` comparison on plain release versions. -/
def verLt : List Nat → List Nat → Bool
  | [], bs => bs.any (fun b => decide (0 < b))
  | a :: as, [] => decide (a = 0) && verLt as []
  | a :: as, b :: bs => decide (a < b) || (decide (a = b) && verLt as bs)

/-- The minimum Ray version the script's assertion demands:
`Version("2.44.1")` (source line 28). -/
def minRayVersion : List Nat := [2, 44, 1]

/-- The engine configuration value type
(`vLLMEngineProcessorConfig`). -/
structure EngineConfig where
  model_source : String
  engine_kwargs : List (String × Val)
  concurrency : Nat
  batch_size : Nat
  deriving DecidableEq, Repr

/-- The configuration the script constructs (source lines 45-54). -/
def scriptConfig : EngineConfig :=
  { model_source := "unsloth/Llama-3.1-8B-Instruct",
    engine_kwargs :=
      [ ("enable_chunked_prefill", .bool true),
        ("max_num_batched_tokens", .int 4096),
        ("max_model_len", .int 16384) ],
    concurrency := 1,
    batch_size := 64 }

/-- Observable effects of the script's top-level statements. -/
inductive Effect where
  | readText (uri : String)
  | printSchema
  | countDataset
  | printSize
  | constructConfig (c : EngineConfig)
  | buildProcessor
  | applyProcessor
  | takeRecords (limit : Nat)
  | printOutputs
  deriving DecidableEq, Repr

/-- Which effects block synchronously on the full or partial dataset:
`ds.count()` and `ds.take(...)`. -/
def Effect.isBlocking : Effect → Bool
  | .countDataset => true
  | .takeRecords _ => true
  | _ => false

/-- Which effects perform dataset I/O, configuration, or pipeline
construction (everything except pure printing). -/
def Effect.isWork : Effect → Bool
  | .printSchema => false
  | .printSize => false
  | .printOutputs => false
  | _ => true

/-- The interpreter state while executing the script top to bottom:
a program counter over the ten top-level statements, the effect trace so
far (in execution order), the constructed config if any, and the assertion
failure message if the run halted. -/
structure ScriptState where
  pc : Nat
  trace : List Effect
  config : Option EngineConfig
  halted : Option String
  deriving DecidableEq, Repr

/-- Initial interpreter state. -/
def initState : ScriptState :=
  { pc := 0, trace := [], config := none, halted := none }

/-- One top-level statement of the script, in source order:

* pc 0: `assert Version(ray.__version__) >= Version("2.44.1"), ...` (line 28)
* pc 1: `ds = ray.data.read_text("s3://anonymous@air-example-data/prompts.txt")` (line 38)
* pc 2: `print(ds.schema())` (line 39)
* pc 3: `size = ds.count()` (line 41)
* pc 4: `print(f"Size of dataset: {size} prompts")` (line 42)
* pc 5: `config = vLLMEngineProcessorConfig(...)` (lines 45-54)
* pc 6: `vllm_processor = build_llm_processor(config, preprocess=..., postprocess=...)` (lines 58-74)
* pc 7: `ds = vllm_processor(ds)` (line 76)
* pc 8: `outputs = ds.take(limit=10)` (line 81)
* pc 9: the output print loop (lines 83-87)

A halted state is absorbing. -/
def step (rayVersion : List Nat) (s : ScriptState) : ScriptState :=
  if s.halted.isSome then s
  else
    match s.pc with
    | 0 =>
        if verLt rayVersion minRayVersion then
          { s with halted := some "Ray version must be at least 2.44.1" }
        else
          { s with pc := 1 }
    | 1 =>
        { s with pc := 2,
                 trace := s.trace ++ [.readText "s3://anonymous@air-example-data/prompts.txt"] }
    | 2 => { s with pc := 3, trace := s.trace ++ [.printSchema] }
    | 3 => { s with pc := 4, trace := s.trace ++ [.countDataset] }
    | 4 => { s with pc := 5, trace := s.trace ++ [.printSize] }
    | 5 =>
        { s with pc := 6,
                 trace := s.trace ++ [.constructConfig scriptConfig],
                 config := some scriptConfig }
    | 6 => { s with pc := 7, trace := s.trace ++ [.buildProcessor] }
    | 7 => { s with pc := 8, trace := s.trace ++ [.applyProcessor] }
    | 8 => { s with pc := 9, trace := s.trace ++ [.takeRecords 10] }
    | 9 => { s with pc := 10, trace := s.trace ++ [.printOutputs] }
    | _ => s

/-- The state after the first `n` statements. -/
def runN (rayVersion : List Nat) : Nat → ScriptState
  | 0 => initState
  | n + 1 => step rayVersion (runN rayVersion n)

/-- A full run of the script (all ten statements). -/
def run (rayVersion : List Nat) : ScriptState :=
  runN rayVersion 10

/-- The trace of a complete successful run, in source order. -/
def linearTrace : List Effect :=
  [ .readText "s3://anonymous@air-example-data/prompts.txt",
    .printSchema, .countDataset, .printSize,
    .constructConfig scriptConfig, .buildProcessor, .applyProcessor,
    .takeRecords 10, .printOutputs ]

/-! ## Bounded peek (Ray Data `Dataset.take`) -/

/-- Modelled from the spec: Ray Data's `Dataset.take(limit)` — the bounded
peek of source line 81 — whose implementation lives in the external Ray
Data runtime, not in this repository.  Per the spec it "returns the first
N output Records materialized into memory" and "does not raise"; we model
it as totally returning the `limit`-prefix of the output sequence. -/
def takePeek {α : Type} (xs : List α) (limit : Nat) : Except String (List α) :=
  .ok (xs.take limit)

/-! ## Helper lemmas -/

theorem Record.lookup_cons (k k' : String) (v : Val) (r : Record) :
    Record.lookup ((k', v) :: r) k = if k' = k then some v else r.lookup k := rfl

/-- A step never un-sets a constructed config: once `config` holds the
script's configuration value, every later state still holds it, unchanged. -/
theorem step_config_some (v : List Nat) (s : ScriptState)
    (h : s.config = some scriptConfig) : (step v s).config = some scriptConfig := by
  unfold step
  split
  · exact h
  · split <;> (try split) <;> simp [h]

/-- A successful run (version check passes) computes to the final state
with the full linear trace, the constructed config, and no halt. -/
theorem run_ok_trace (v : List Nat) (hv : verLt v minRayVersion = false) :
    run v = { pc := 10, trace := linearTrace,
              config := some scriptConfig, halted := none } := by
  simp [run, runN, step, initState, hv, linearTrace]

/-- From statement six onward, every state of a successful run carries the
script's configuration value. -/
theorem runN_config_from6 (v : List Nat) (hv : verLt v minRayVersion = false) :
    ∀ k : Nat, (runN v (6 + k)).config = some scriptConfig := by
  intro k
  induction k with
  | zero => simp [runN, step, initState, hv]
  | succ k ih => exact step_config_some v _ ih

/-! ## Claim theorems -/

/-- C1 (counterexample): the claim quantifies over every record containing a
`generated_text` field, but on a record that also already has an `answer`
field the postprocess lambda raises `TypeError` (duplicate keyword argument
in `dict(answer=..., **row)`) instead of returning a record. -/
theorem postprocess_collision_cex :
    Record.lookup [("generated_text", Val.str "ga"), ("answer", Val.str "old")]
        "generated_text" = some (Val.str "ga") ∧
      postprocess [("generated_text", Val.str "ga"), ("answer", Val.str "old")] =
        .error (.typeError "dict() got multiple values for keyword argument: answer") :=
  ⟨rfl, rfl⟩

/-- C1 (amended): for every record `r` containing a `generated_text` field
and no `answer` field, the postprocess lambda returns a record containing
every key of `r` with its original value, plus an `answer` key equal to
`r`'s `generated_text` value. -/
theorem postprocess_field_preservation (r : Record) (g : Val)
    (hg : r.lookup "generated_text" = some g) (ha : r.lookup "answer" = none) :
    ∃ out : Record, postprocess r = .ok out ∧
      (∀ k : String, (r.lookup k).isSome → out.lookup k = r.lookup k) ∧
      out.lookup "answer" = some g := by
  refine ⟨("answer", g) :: r, by simp [postprocess, hg, ha], ?_, ?_⟩
  · intro k hk
    rw [Record.lookup_cons]
    rcases eq_or_ne k "answer" with hk' | hk'
    · subst hk'
      rw [ha] at hk
      simp at hk
    · rw [if_neg fun h => hk' h.symm]
  · rw [Record.lookup_cons, if_pos rfl]

/-- C1 (witness): the amended claim at a concrete record. -/
theorem postprocess_field_preservation_witness :
    Record.lookup [("text", Val.str "t"), ("generated_text", Val.str "ga")]
        "generated_text" = some (Val.str "ga") ∧
      Record.lookup [("text", Val.str "t"), ("generated_text", Val.str "ga")]
        "answer" = none ∧
      ∃ out : Record,
        postprocess [("text", Val.str "t"), ("generated_text", Val.str "ga")] = .ok out ∧
        (∀ k : String,
          (Record.lookup [("text", Val.str "t"), ("generated_text", Val.str "ga")] k).isSome →
            out.lookup k =
              Record.lookup [("text", Val.str "t"), ("generated_text", Val.str "ga")] k) ∧
        out.lookup "answer" = some (Val.str "ga") :=
  ⟨rfl, rfl, postprocess_field_preservation _ _ rfl rfl⟩

/-- C2 (counterexample): on a record with a `text` field the preprocess
lambda produces two messages (a system message followed by the user
message), not a single user message. -/
theorem preprocess_single_message_cex :
    Except.map (fun req => req.messages.length)
        (preprocess [("text", Val.str "Tell me about cats")]) = .ok 2 ∧ (2 : Nat) ≠ 1 :=
  ⟨rfl, by decide⟩

/-- C2 (amended): for every record `r` with a `text` field, the preprocess
lambda produces exactly two messages — a system message with content
"You are a bot that responds with haikus." followed by a single user
message whose content is `r`'s `text` value — and sampling parameters with
temperature 0.3 and max_tokens 250. -/
theorem preprocess_request_shape (r : Record) (t : Val) (ht : r.lookup "text" = some t) :
    preprocess r = .ok
      { messages :=
          [ { role := "system",
              content := .str "You are a bot that responds with haikus." },
            { role := "user", content := t } ],
        sampling_params := { temperature := 3/10, max_tokens := 250 } } := by
  simp [preprocess, ht]

/-- C2 (witness): the amended claim at a concrete record. -/
theorem preprocess_request_shape_witness :
    Record.lookup [("text", Val.str "Tell me about cats")] "text" =
        some (Val.str "Tell me about cats") ∧
      preprocess [("text", Val.str "Tell me about cats")] = .ok
        { messages :=
            [ { role := "system",
                content := .str "You are a bot that responds with haikus." },
              { role := "user", content := .str "Tell me about cats" } ],
          sampling_params := { temperature := 3/10, max_tokens := 250 } } :=
  ⟨rfl, preprocess_request_shape _ _ rfl⟩

/-- C4: the preprocess lambda is pure — two invocations on the same record,
from arbitrary and unrelated ambient states, return structurally identical
results, and neither invocation changes its ambient state. -/
theorem preprocess_pure {σ₁ σ₂ : Type} (s₁ : σ₁) (s₂ : σ₂) (r : Record) :
    (preprocessSt s₁ r).1 = (preprocessSt s₂ r).1 ∧
      (preprocessSt s₁ r).2 = s₁ ∧ (preprocessSt s₂ r).2 = s₂ :=
  ⟨rfl, rfl, rfl⟩

/-- C5: on every record that already contains an `answer` key the
postprocess lambda raises (a duplicate-keyword `TypeError` when
`generated_text` is present, an error in every case), and the merge
returns a record only when the input has no `answer` key. -/
theorem postprocess_duplicate_answer (r : Record) :
    ((r.lookup "answer").isSome = true →
      (((r.lookup "generated_text").isSome = true →
        postprocess r =
          .error (.typeError "dict() got multiple values for keyword argument: answer")) ∧
       ∃ e, postprocess r = .error e)) ∧
    (∀ out : Record, postprocess r = .ok out → r.lookup "answer" = none) := by
  constructor
  · intro ha
    rcases Option.isSome_iff_exists.mp ha with ⟨a, ha'⟩
    constructor
    · intro hg
      rcases Option.isSome_iff_exists.mp hg with ⟨g, hg'⟩
      simp [postprocess, hg', ha']
    · cases hg : r.lookup "generated_text" with
      | none => exact ⟨.keyError "generated_text", by simp [postprocess, hg]⟩
      | some g =>
          exact ⟨.typeError "dict() got multiple values for keyword argument: answer",
            by simp [postprocess, hg, ha']⟩
  · intro out h
    by_contra hne
    have ha : (r.lookup "answer").isSome := Option.ne_none_iff_isSome.mp hne
    cases hg : r.lookup "generated_text" with
    | none => simp [postprocess, hg] at h
    | some g => simp [postprocess, hg, ha] at h

/-- C5 (witness): the duplicate-keyword error at a concrete record. -/
theorem postprocess_duplicate_answer_witness :
    postprocess [("generated_text", Val.str "g"), ("answer", Val.str "a")] =
      .error (.typeError "dict() got multiple values for keyword argument: answer") :=
  ((postprocess_duplicate_answer
      [("generated_text", Val.str "g"), ("answer", Val.str "a")]).1 rfl).1 rfl

/-- C9: on every record lacking a `text` key the preprocess lambda raises a
`KeyError` rather than producing an inference request. -/
theorem preprocess_missing_text (r : Record) (h : r.lookup "text" = none) :
    preprocess r = .error (.keyError "text") := by
  simp [preprocess, h]

/-- C9 (witness): the `KeyError` at a concrete record without `text`. -/
theorem preprocess_missing_text_witness :
    Record.lookup [("prompt", Val.str "p")] "text" = none ∧
      preprocess [("prompt", Val.str "p")] = .error (.keyError "text") :=
  ⟨rfl, preprocess_missing_text _ rfl⟩

/-- C10: for every record with a `generated_text` field and no `answer`
field, the postprocess output carries the generated text under both the
`generated_text` key and the `answer` key, with equal values. -/
theorem postprocess_duplicates_generated_text (r : Record) (g : Val)
    (hg : r.lookup "generated_text" = some g) (ha : r.lookup "answer" = none) :
    ∃ out : Record, postprocess r = .ok out ∧
      out.lookup "generated_text" = some g ∧ out.lookup "answer" = some g := by
  refine ⟨("answer", g) :: r, by simp [postprocess, hg, ha], ?_, ?_⟩
  · rw [Record.lookup_cons, if_neg (by decide), hg]
  · rw [Record.lookup_cons, if_pos rfl]

/-- C10 (witness): both keys carry the generated text at a concrete record. -/
theorem postprocess_duplicates_generated_text_witness :
    Record.lookup [("generated_text", Val.str "ga")] "generated_text" =
        some (Val.str "ga") ∧
      Record.lookup [("generated_text", Val.str "ga")] "answer" = none ∧
      ∃ out : Record,
        postprocess [("generated_text", Val.str "ga")] = .ok out ∧
        out.lookup "generated_text" = some (Val.str "ga") ∧
        out.lookup "answer" = some (Val.str "ga") :=
  ⟨rfl, rfl, postprocess_duplicates_generated_text _ _ rfl rfl⟩

/-- C3: with a runtime version below 2.44.1 the script halts with the
assertion's descriptive message before any dataset I/O, configuration or
pipeline construction (empty effect trace, no config); and the version
check is the only validation — with a sufficient version the run never
halts. -/
theorem version_precondition (v : List Nat) :
    (verLt v minRayVersion = true →
      (run v).halted = some "Ray version must be at least 2.44.1" ∧
      (run v).trace = [] ∧ (run v).config = none) ∧
    (verLt v minRayVersion = false → (run v).halted = none) := by
  constructor
  · intro h
    simp [run, runN, step, initState, h]
  · intro h
    simp [run_ok_trace v h]

/-- C3 (witness): version 2.43 fails fast with the message and no effects;
version 2.44.1 passes the only check and never halts. -/
theorem version_precondition_witness :
    (verLt [2, 43] minRayVersion = true ∧
      (run [2, 43]).halted = some "Ray version must be at least 2.44.1" ∧
      (run [2, 43]).trace = [] ∧ (run [2, 43]).config = none) ∧
    (verLt [2, 44, 1] minRayVersion = false ∧ (run [2, 44, 1]).halted = none) :=
  ⟨⟨by decide, (version_precondition [2, 43]).1 (by decide)⟩,
   ⟨by decide, (version_precondition [2, 44, 1]).2 (by decide)⟩⟩

/-- C6: on every output sequence longer than 10 records, the bounded peek
with limit 10 returns (without raising) exactly the first 10 records:
a list of length 10 agreeing with the sequence at every index below 10. -/
theorem bounded_peek {α : Type} (xs : List α) (h : 10 < xs.length) :
    takePeek xs 10 = .ok (xs.take 10) ∧ (xs.take 10).length = 10 ∧
      ∀ i : Nat, i < 10 → (xs.take 10)[i]? = xs[i]? := by
  refine ⟨rfl, ?_, ?_⟩
  · rw [List.length_take]
    omega
  · intro i hi
    exact List.getElem?_take_of_lt hi

/-- C6 (witness): the bounded peek on a concrete 11-element sequence. -/
theorem bounded_peek_witness :
    10 < (List.range 11).length ∧
      (takePeek (List.range 11) 10 = .ok ((List.range 11).take 10) ∧
       ((List.range 11).take 10).length = 10 ∧
       ∀ i : Nat, i < 10 → ((List.range 11).take 10)[i]? = (List.range 11)[i]?) :=
  ⟨by decide, bounded_peek (List.range 11) (by decide)⟩

/-- C7: in every successful run the engine configuration is constructed
exactly once (one construction effect in the whole trace), every state
from that statement on carries that same value unchanged, and its
concurrency and batch size are positive. -/
theorem engineConfig_immutable (v : List Nat) (n : Nat)
    (hv : verLt v minRayVersion = false) (hn : 6 ≤ n) :
    (runN v n).config = some scriptConfig ∧
      ((run v).trace.countP
        (fun e => match e with | .constructConfig _ => true | _ => false)) = 1 ∧
      0 < scriptConfig.concurrency ∧ 0 < scriptConfig.batch_size := by
  obtain ⟨k, rfl⟩ := Nat.exists_eq_add_of_le hn
  refine ⟨runN_config_from6 v hv k, ?_, by decide, by decide⟩
  rw [run_ok_trace v hv]
  rfl

/-- C7 (witness): the config invariant at the end of a concrete run. -/
theorem engineConfig_immutable_witness :
    verLt [2, 44, 1] minRayVersion = false ∧ 6 ≤ 10 ∧
      ((runN [2, 44, 1] 10).config = some scriptConfig ∧
       ((run [2, 44, 1]).trace.countP
         (fun e => match e with | .constructConfig _ => true | _ => false)) = 1 ∧
       0 < scriptConfig.concurrency ∧ 0 < scriptConfig.batch_size) :=
  ⟨by decide, by decide, engineConfig_immutable [2, 44, 1] 10 (by decide) (by decide)⟩

/-- C8: every run that passes the version check performs exactly the fixed
linear sequence of effects — load, print schema, count, print size,
configure, build, apply, take, print outputs — never halts midway, and its
only blocking effects are the full-dataset count and the bounded take. -/
theorem linear_control_flow (v : List Nat) (hv : verLt v minRayVersion = false) :
    (run v).trace = linearTrace ∧ (run v).halted = none ∧
      (run v).trace.filter Effect.isBlocking =
        [.countDataset, .takeRecords 10] := by
  rw [run_ok_trace v hv]
  exact ⟨rfl, rfl, rfl⟩

/-- C8 (witness): the linear trace of a concrete run. -/
theorem linear_control_flow_witness :
    verLt [2, 45, 0] minRayVersion = false ∧
      ((run [2, 45, 0]).trace = linearTrace ∧ (run [2, 45, 0]).halted = none ∧
       (run [2, 45, 0]).trace.filter Effect.isBlocking =
         [.countDataset, .takeRecords 10]) :=
  ⟨by decide, linear_control_flow [2, 45, 0] (by decide)⟩

end BatchLLM
